import Mathlib

/-!
Verification development for the event-driven servant runtime of the
IDTF-FastProto prototyping toolkit.  The definitions below are a shallow
embedding of the Python sources:

* `src/core/eventbus/inmem.py`   — `InMemoryEventBus`
* `src/core/runtime/tag_servant.py`  — `TagServant`
* `src/core/runtime/asset_servant.py` — `AssetServant`
* `src/core/runtime/ndh_service.py`  — `NDHService`
* `src/core/queue/sqlite_queue.py`  — `SQLiteQueue`, `SQLiteQueueManager`
* `src/core/tsdb/sqlite_tsdb.py`   — `SQLiteTSDB.write_tag_values`

Python numbers are modelled as rationals, ISO-8601 timestamp strings as
naturals (their lexicographic order is chronological), `uuid` generation as
an explicit counter threaded through the operations, and callbacks by an
explicit invocation log together with a flag telling whether the callback
raises on a given event.
-/

namespace IDTF

/-- Python values as they occur in payloads and queue messages: `pynone`
models Python `None`, numbers are modelled as rationals, and `dict`/`vlist`
model the JSON-like containers. -/
inductive PyVal : Type where
  | pynone : PyVal
  | num : ℚ → PyVal
  | str : String → PyVal
  | dict : List (String × PyVal) → PyVal
  | vlist : List PyVal → PyVal

/-- `Event` dataclass from `src/core/eventbus/interfaces.py`. -/
structure Event where
  event_id : Nat
  event_type : String
  timestamp : Nat
  source : String
  version : String := "1.0.0"
  payload : List (String × PyVal) := []

/-- One entry of `InMemoryEventBus.subscriptions`: the subscriber's event
type pattern, the optional filter, and the callback, modelled by whether it
raises on a given event (its side effects are visible through the
invocation logs returned by `publish`/`replay_events`). -/
structure Subscription where
  event_type : String
  filter_func : Option (Event → Bool)
  cbRaises : Event → Bool

/-- The `stats` dictionary of `InMemoryEventBus`. -/
structure BusStats where
  total_published : Nat := 0
  total_delivered : Nat := 0
  total_subscriptions : Nat := 0

/-- State of `InMemoryEventBus` (`src/core/eventbus/inmem.py`).  The
subscription dictionary is modelled as an insertion-ordered association
list, as Python dicts preserve insertion order. -/
structure InMemoryEventBus where
  max_history_size : Nat := 10000
  event_history : List Event := []
  subscriptions : List (String × Subscription) := []
  stats : BusStats := {}

/-- The bus produced by `InMemoryEventBus(max_history_size=cap)`. -/
def initBus (cap : Nat) : InMemoryEventBus :=
  { max_history_size := cap }

/-- Matching test performed by the delivery loop of `publish` (and
`replay_events`): exact event-type equality or the `"*"` wildcard, then the
optional filter. -/
def subMatches (sub : Subscription) (e : Event) : Bool :=
  (sub.event_type == e.event_type || sub.event_type == "*") &&
    (match sub.filter_func with
     | some f => f e
     | none => true)

/-- The `for sub_id, sub_info in self.subscriptions.items()` loop of
`publish`: returns the invocation log (which subscriber was called with
which event, in order) and the number of callback invocations that did not
raise (the increment of `total_delivered`).  A raising callback is caught
by the `try`/`except` and the loop continues with the next subscriber. -/
def deliverLoop (e : Event) : List (String × Subscription) → List (String × Event) × Nat
  | [] => ([], 0)
  | (sid, sub) :: rest =>
    if subMatches sub e then
      let tail := deliverLoop e rest
      ((sid, e) :: tail.1, (if sub.cbRaises e then 0 else 1) + tail.2)
    else
      deliverLoop e rest

/-- Result of `InMemoryEventBus.publish`: the updated bus, the invocation
log, and the returned boolean. -/
structure PublishResult where
  bus : InMemoryEventBus
  invocations : List (String × Event)
  ok : Bool

/-- `InMemoryEventBus.publish`: append the event to the history, evict the
oldest entry (`pop(0)`) when the cap is exceeded, bump the stats, deliver
to every matching subscriber, and return `True`. -/
def publish (bus : InMemoryEventBus) (e : Event) : PublishResult :=
  let h1 := bus.event_history ++ [e]
  let h2 := if bus.max_history_size < h1.length then h1.tail else h1
  let d := deliverLoop e bus.subscriptions
  { bus := { bus with
      event_history := h2,
      stats := { bus.stats with
        total_published := bus.stats.total_published + 1,
        total_delivered := bus.stats.total_delivered + d.2 } },
    invocations := d.1,
    ok := true }

/-- `InMemoryEventBus.subscribe`; the fresh `uuid4` subscription id is an
explicit argument. -/
def subscribe (bus : InMemoryEventBus) (subscription_id : String)
    (event_type : String) (filter_func : Option (Event → Bool))
    (cbRaises : Event → Bool) : InMemoryEventBus × String :=
  ({ bus with
      subscriptions :=
        bus.subscriptions ++ [(subscription_id, ⟨event_type, filter_func, cbRaises⟩)],
      stats := { bus.stats with
        total_subscriptions := bus.stats.total_subscriptions + 1 } },
   subscription_id)

/-- Python list slice `l[start:]` (CPython semantics: a negative `start`
counts from the end and is clamped at 0, so `l[-0:]` is the whole list). -/
def pySliceFrom (start : Int) (l : List α) : List α :=
  if start < 0 then l.drop (l.length + start).toNat else l.drop start.toNat

/-- The filtering phase of `InMemoryEventBus.get_event_history` (type
filter — skipped for `None` and for the falsy empty string — then the two
time-range filters). -/
def filteredHistory (bus : InMemoryEventBus) (event_type : Option String)
    (start_time end_time : Option Nat) : List Event :=
  let f1 := match event_type with
    | some t => if t == "" then bus.event_history
                else bus.event_history.filter (fun ev => ev.event_type == t)
    | none => bus.event_history
  let f2 := match start_time with
    | some s => f1.filter (fun ev => decide (s ≤ ev.timestamp))
    | none => f1
  match end_time with
  | some t => f2.filter (fun ev => decide (ev.timestamp ≤ t))
  | none => f2

/-- `InMemoryEventBus.get_event_history`: filter the history, then return
the Python slice `filtered_events[-limit:]`. -/
def get_event_history (bus : InMemoryEventBus) (event_type : Option String)
    (start_time end_time : Option Nat) (limit : Nat) : List Event :=
  pySliceFrom (-(limit : Int)) (filteredHistory bus event_type start_time end_time)

/-- `InMemoryEventBus.replay_events`: fetch the matching history with
`limit = max_history_size`, and re-invoke every matching subscriber on each
event in order.  Nothing in the bus state is mutated (in particular the
history is not re-appended and the stats are untouched), so the bus is
returned unchanged together with the invocation log. -/
def replay_events (bus : InMemoryEventBus) (event_type : Option String)
    (start_time end_time : Option Nat) : InMemoryEventBus × List (String × Event) :=
  let evs := get_event_history bus event_type start_time end_time bus.max_history_size
  (bus, (evs.map (fun ev => (deliverLoop ev bus.subscriptions).1)).flatten)

/-- A sequence of `publish` calls. -/
def publishAll (bus : InMemoryEventBus) (es : List Event) : InMemoryEventBus :=
  es.foldl (fun b ev => (publish b ev).bus) bus

/-- The last `n` elements of a list. -/
def lastN (n : Nat) (l : List α) : List α :=
  l.drop (l.length - n)

/-- `Tag` dataclass from `src/core/iadl/models.py` (the fields the runtime
reads; the `kind` enum is modelled by its string value). -/
structure Tag where
  tag_id : String
  name : String
  kind : String
  eu_unit : Option String := none

/-- `TagServantConfig` dataclass from `src/core/runtime/tag_servant.py`. -/
structure TagServantConfig where
  auto_publish_events : Bool := true
  auto_write_tsdb : Bool := false
  value_change_threshold : Option ℚ := none

/-- `TagValue` dataclass from `src/core/tsdb/interfaces.py`. -/
structure TagValue where
  tag_id : String
  timestamp : Nat
  value : PyVal
  quality : Nat := 100
  source : String := ""

/-- State of a `TagServant` (`src/core/runtime/tag_servant.py`).  The
attached TSDB handle is modelled by the flag `has_tsdb`; writes to it are
reported in the operation results. -/
structure TagServant where
  tag_instance_id : String
  tag_definition : Tag
  asset_instance_id : String
  has_tsdb : Bool := false
  config : TagServantConfig := {}
  current_value : Option PyVal := none
  last_update_time : Option Nat := none
  is_running : Bool := false

/-- Helper turning Python `Optional[str]` payload entries into `PyVal`. -/
def optStr : Option String → PyVal
  | some s => PyVal.str s
  | none => PyVal.pynone

/-- Helper turning the optional current value into a payload entry. -/
def optVal : Option PyVal → PyVal
  | some v => v
  | none => PyVal.pynone

/-- The event built by `TagServant._publish_tag_created`. -/
def mkTagCreated (eid now : Nat) (s : TagServant) : Event :=
  { event_id := eid, event_type := "TagCreated", timestamp := now,
    source := "TagServant:" ++ s.tag_instance_id,
    payload := [("tag_instance_id", PyVal.str s.tag_instance_id),
                ("tag_id", PyVal.str s.tag_definition.tag_id),
                ("asset_instance_id", PyVal.str s.asset_instance_id),
                ("name", PyVal.str s.tag_definition.name),
                ("kind", PyVal.str s.tag_definition.kind),
                ("eu_unit", optStr s.tag_definition.eu_unit)] }

/-- The event built by `TagServant._publish_tag_value_changed`. -/
def mkTagValueChanged (eid now : Nat) (old_value new_value : Option PyVal)
    (s : TagServant) : Event :=
  { event_id := eid, event_type := "TagValueChanged", timestamp := now,
    source := "TagServant:" ++ s.tag_instance_id,
    payload := [("tag_instance_id", PyVal.str s.tag_instance_id),
                ("tag_id", PyVal.str s.tag_definition.tag_id),
                ("asset_instance_id", PyVal.str s.asset_instance_id),
                ("old_value", optVal old_value),
                ("new_value", optVal new_value),
                ("timestamp", PyVal.num now),
                ("eu_unit", optStr s.tag_definition.eu_unit)] }

/-- The event built by `TagServant._publish_tag_deleted`. -/
def mkTagDeleted (eid now : Nat) (s : TagServant) : Event :=
  { event_id := eid, event_type := "TagDeleted", timestamp := now,
    source := "TagServant:" ++ s.tag_instance_id,
    payload := [("tag_instance_id", PyVal.str s.tag_instance_id),
                ("tag_id", PyVal.str s.tag_definition.tag_id),
                ("asset_instance_id", PyVal.str s.asset_instance_id)] }

/-- `TagServant.start`: a no-op while running, otherwise sets the running
flag and (when `auto_publish_events`) publishes one `TagCreated` event.
`ctr` is the uuid counter, `now` the current time; the returned list holds
the events handed to `event_bus.publish`, in order. -/
def TagServant.start (ctr now : Nat) (s : TagServant) :
    Nat × TagServant × List Event :=
  if s.is_running then (ctr, s, [])
  else
    let s1 := { s with is_running := true }
    if s.config.auto_publish_events then
      (ctr + 1, s1, [mkTagCreated ctr now s1])
    else (ctr, s1, [])

/-- `TagServant.stop`: a no-op while stopped, otherwise (when
`auto_publish_events`) publishes `TagDeleted` and clears the running
flag. -/
def TagServant.stop (ctr now : Nat) (s : TagServant) :
    Nat × TagServant × List Event :=
  if !s.is_running then (ctr, s, [])
  else
    if s.config.auto_publish_events then
      (ctr + 1, { s with is_running := false }, [mkTagDeleted ctr now s])
    else (ctr, { s with is_running := false }, [])

/-- The threshold check of `TagServant.update_value`: suppression happens
only when a threshold is configured, a current value exists, and both the
new and the current value are numeric with `|new - current| <
threshold`. -/
def thresholdSuppressed (cfg : TagServantConfig) (cur : Option PyVal)
    (v : PyVal) : Bool :=
  match cfg.value_change_threshold, cur with
  | some th, some c =>
    match v, c with
    | PyVal.num x, PyVal.num y => decide (|x - y| < th)
    | _, _ => false
  | _, _ => false

/-- `TagServant.update_value`: a no-op while stopped; a silently dropped
update when the threshold filter fires; otherwise stores the new value and
timestamp, publishes `TagValueChanged` (when `auto_publish_events`), and
appends to the TSDB (when `auto_write_tsdb` and a TSDB is attached).
Returns the uuid counter, the new state, the published events, and the
TSDB writes. -/
def TagServant.update_value (ctr now : Nat) (v : PyVal) (s : TagServant) :
    Nat × TagServant × List Event × List TagValue :=
  if !s.is_running then (ctr, s, [], [])
  else if thresholdSuppressed s.config s.current_value v then (ctr, s, [], [])
  else
    let old := s.current_value
    let s1 := { s with current_value := some v, last_update_time := some now }
    let evs := if s.config.auto_publish_events
      then [mkTagValueChanged ctr now old (some v) s1] else []
    let ctr1 := if s.config.auto_publish_events then ctr + 1 else ctr
    let writes := if s.config.auto_write_tsdb && s.has_tsdb
      then [{ tag_id := s.tag_instance_id, timestamp := now, value := v }]
      else []
    (ctr1, s1, evs, writes)

/-- `Transform` from `src/core/iadl/models.py`. -/
structure Transform where
  translation : List ℚ
  rotation : List ℚ
  scale : List ℚ

/-- `AssetInstance` from `src/core/fdl/models.py` (the fields the runtime
reads). -/
structure AssetInstance where
  instance_id : String
  ref_asset : String
  transform : Transform

/-- `Asset` from `src/core/iadl/models.py` (the fields the runtime
reads). -/
structure Asset where
  asset_id : String
  name : String
  tags : List Tag

/-- `AssetServantConfig` from `src/core/runtime/asset_servant.py`. -/
structure AssetServantConfig where
  auto_publish_events : Bool := true
  enable_tag_servants : Bool := true

/-- State of an `AssetServant` (`src/core/runtime/asset_servant.py`); the
`tag_servants` dict is an insertion-ordered association list keyed by
`tag_id`.  The Python attribute `instance` is named `inst` here because
`instance` is a Lean keyword. -/
structure AssetServant where
  inst : AssetInstance
  asset_definition : Asset
  config : AssetServantConfig := {}
  tag_servants : List (String × TagServant) := []
  is_running : Bool := false

/-- Python-dict assignment `d[k] = v` on an association list: overwrite in
place when the key exists, append otherwise. -/
def assocSet (l : List (String × α)) (k : String) (v : α) : List (String × α) :=
  if l.any (fun p => p.1 == k) then
    l.map (fun p => if p.1 == k then (k, v) else p)
  else l ++ [(k, v)]

/-- `AssetServant._initialize_tag_servants`: one fresh `TagServant` per tag
of the asset definition, keyed by `tag_id`, with tag-instance id
`instance_id + "_" + tag_id`. -/
def initializeTagServants (inst : AssetInstance) (asset : Asset) :
    List (String × TagServant) :=
  asset.tags.foldl
    (fun acc tag =>
      assocSet acc tag.tag_id
        { tag_instance_id := inst.instance_id ++ "_" ++ tag.tag_id,
          tag_definition := tag,
          asset_instance_id := inst.instance_id })
    []

/-- `AssetServant.__init__`. -/
def mkAssetServant (inst : AssetInstance) (asset : Asset)
    (cfg : AssetServantConfig) : AssetServant :=
  { inst := inst, asset_definition := asset, config := cfg,
    tag_servants := if cfg.enable_tag_servants
      then initializeTagServants inst asset else [] }

/-- Payload entry for a transform, as built by the asset servant's event
helpers. -/
def transformPayload (t : Transform) : PyVal :=
  PyVal.dict [("translation", PyVal.vlist (t.translation.map PyVal.num)),
              ("rotation", PyVal.vlist (t.rotation.map PyVal.num)),
              ("scale", PyVal.vlist (t.scale.map PyVal.num))]

/-- The event built by `AssetServant._publish_instance_created`. -/
def mkInstanceCreated (eid now : Nat) (a : AssetServant) : Event :=
  { event_id := eid, event_type := "InstanceCreated", timestamp := now,
    source := "AssetServant:" ++ a.inst.instance_id,
    payload := [("instance_id", PyVal.str a.inst.instance_id),
                ("ref_asset", PyVal.str a.inst.ref_asset),
                ("transform", transformPayload a.inst.transform)] }

/-- The event built by `AssetServant._publish_instance_deleted`. -/
def mkInstanceDeleted (eid now : Nat) (a : AssetServant) : Event :=
  { event_id := eid, event_type := "InstanceDeleted", timestamp := now,
    source := "AssetServant:" ++ a.inst.instance_id,
    payload := [("instance_id", PyVal.str a.inst.instance_id)] }

/-- One iteration of the
`for tag_servant in self.tag_servants.values(): tag_servant.start()` loop
of `AssetServant.start`, threading the uuid counter, the updated dict and
the published events. -/
def startTagStep (now : Nat) (acc : Nat × List (String × TagServant) × List Event)
    (p : String × TagServant) : Nat × List (String × TagServant) × List Event :=
  let r := TagServant.start acc.1 now p.2
  (r.1, acc.2.1 ++ [(p.1, r.2.1)], acc.2.2 ++ r.2.2)

/-- The tag-servant loop of `AssetServant.start`. -/
def startTagServants (ctr now : Nat) (l : List (String × TagServant)) :
    Nat × List (String × TagServant) × List Event :=
  l.foldl (startTagStep now) (ctr, [], [])

/-- One iteration of the corresponding loop of `AssetServant.stop`. -/
def stopTagStep (now : Nat) (acc : Nat × List (String × TagServant) × List Event)
    (p : String × TagServant) : Nat × List (String × TagServant) × List Event :=
  let r := TagServant.stop acc.1 now p.2
  (r.1, acc.2.1 ++ [(p.1, r.2.1)], acc.2.2 ++ r.2.2)

/-- The tag-servant loop of `AssetServant.stop`. -/
def stopTagServants (ctr now : Nat) (l : List (String × TagServant)) :
    Nat × List (String × TagServant) × List Event :=
  l.foldl (stopTagStep now) (ctr, [], [])

/-- `AssetServant.start`: a no-op while running, otherwise sets the
running flag, publishes `InstanceCreated` (when `auto_publish_events`),
then starts every owned tag servant. -/
def AssetServant.start (ctr now : Nat) (a : AssetServant) :
    Nat × AssetServant × List Event :=
  if a.is_running then (ctr, a, [])
  else
    let a1 := { a with is_running := true }
    let r0 := if a.config.auto_publish_events
      then (ctr + 1, [mkInstanceCreated ctr now a1]) else (ctr, [])
    let r1 := startTagServants r0.1 now a1.tag_servants
    (r1.1, { a1 with tag_servants := r1.2.1 }, r0.2 ++ r1.2.2)

/-- `AssetServant.stop`: a no-op while stopped, otherwise stops every
owned tag servant, publishes `InstanceDeleted` (when
`auto_publish_events`), and clears the running flag. -/
def AssetServant.stop (ctr now : Nat) (a : AssetServant) :
    Nat × AssetServant × List Event :=
  if !a.is_running then (ctr, a, [])
  else
    let r1 := stopTagServants ctr now a.tag_servants
    let a1 := { a with tag_servants := r1.2.1, is_running := false }
    if a.config.auto_publish_events then
      (r1.1 + 1, a1, r1.2.2 ++ [mkInstanceDeleted r1.1 now a1])
    else (r1.1, a1, r1.2.2)

/-- Number of events of a given type in a trace. -/
def countType (t : String) (es : List Event) : Nat :=
  (es.filter (fun e => e.event_type == t)).length

/-- `Area` from `src/core/fdl/models.py` (the field the runtime reads). -/
structure Area where
  instances : List AssetInstance

/-- `Site` from `src/core/fdl/models.py` (the fields the runtime reads). -/
structure Site where
  name : String
  areas : List Area

/-- `FDL` from `src/core/fdl/models.py` (the field the runtime reads). -/
structure FDL where
  site : Option Site

/-- Association-list lookup, modelling `dict.get`. -/
def assocGet (l : List (String × α)) (k : String) : Option α :=
  match l.find? (fun p => p.1 == k) with
  | some p => some p.2
  | none => none

/-- State of `NDHService` (`src/core/runtime/ndh_service.py`).  The asset
library is the `assets` dict of `AssetLibraryService` (asset id → asset);
the optional TSDB handle is modelled by `has_tsdb`. -/
structure NDHService where
  has_tsdb : Bool := false
  asset_library : List (String × Asset) := []
  fdl : Option FDL := none
  asset_servants : List (String × AssetServant) := []
  is_running : Bool := false

/-- `NDHService._create_asset_servant`: resolve the instance's referenced
asset definition through `asset_library.get_asset`; on a miss, warn and
skip (the service is returned unchanged); otherwise build the servant,
wire the TSDB into every tag servant when one is configured, and store it
keyed by instance id. -/
def createAssetServant (svc : NDHService) (inst : AssetInstance) : NDHService :=
  match assocGet svc.asset_library inst.ref_asset with
  | none => svc
  | some assetDef =>
    let servant := mkAssetServant inst assetDef
      { auto_publish_events := true, enable_tag_servants := true }
    let servant := if svc.has_tsdb then
        { servant with tag_servants :=
            (servant.tag_servants.map (fun p =>
              (p.1,
               { p.2 with
                  has_tsdb := true,
                  config := { p.2.config with auto_write_tsdb := true } }))) }
      else servant
    { svc with asset_servants := assocSet svc.asset_servants inst.instance_id servant }

/-- All placed instances of a loaded FDL, in iteration order of
`generate_servants` (every area, every instance; a missing or empty site
yields none). -/
def fdlInstances (f : FDL) : List AssetInstance :=
  match f.site with
  | some s => (s.areas.map (fun a => a.instances)).flatten
  | none => []

/-- `NDHService.generate_servants`: raises `ValueError` when no FDL is
loaded, otherwise runs `_create_asset_servant` on every placed instance. -/
def generate_servants (svc : NDHService) : Except String NDHService :=
  match svc.fdl with
  | none => Except.error ("FDL not loaded. Call load_fdl_from_file() first.")
  | some f => Except.ok ((fdlInstances f).foldl createAssetServant svc)

/-- One row of the `queue_<name>` table of `SQLiteQueue`:
auto-incremented id, JSON message, consumed flag. -/
structure QRow where
  id : Nat
  message : PyVal
  consumed : Bool

/-- State of a `SQLiteQueue` (`src/core/queue/sqlite_queue.py`): the
message table, the history table, the `AUTOINCREMENT` counter and the
configured maximum size (0 = unlimited). -/
structure SQLiteQueue where
  name : String
  max_size : Nat := 10000
  rows : List QRow := []
  history : List PyVal := []
  next_id : Nat := 1

/-- Pending (unconsumed) rows of a queue, in table order. -/
def pendingRows (rows : List QRow) : List QRow :=
  rows.filter (fun r => !r.consumed)

/-- `SQLiteQueue.put`: raise `ValueError` when `max_size > 0` and the
pending count has reached it; otherwise insert the message into the queue
table and the history table. -/
def SQLiteQueue.put (q : SQLiteQueue) (msg : PyVal) : Except String SQLiteQueue :=
  if 0 < q.max_size ∧ q.max_size ≤ (pendingRows q.rows).length then
    Except.error ("Queue " ++ q.name ++ " is full")
  else
    Except.ok { q with
      rows := q.rows ++ [{ id := q.next_id, message := msg, consumed := false }],
      history := q.history ++ [msg],
      next_id := q.next_id + 1 }

/-- One comparison step of the scan below: skips consumed rows and keeps
the pending row with the smallest id. -/
def selStep (acc : Option QRow) (r : QRow) : Option QRow :=
  if r.consumed then acc
  else match acc with
    | none => some r
    | some b => if r.id < b.id then some r else b

/-- The `SELECT ... WHERE consumed = 0 ORDER BY id ASC LIMIT 1` of
`SQLiteQueue.get`: the pending row with the smallest id. -/
def selectOldestPending (rows : List QRow) : Option QRow :=
  rows.foldl selStep none

/-- `SQLiteQueue.get`: pop the oldest pending message and mark it
consumed.  Its polling loop returns on the first iteration whenever a
pending message exists; the `none` result models the timeout elapsing on
an empty queue (the timing itself is not modelled). -/
def SQLiteQueue.get (q : SQLiteQueue) : Option PyVal × SQLiteQueue :=
  match selectOldestPending q.rows with
  | some row =>
    (some row.message,
     { q with rows :=
        (q.rows.map (fun r =>
          if r.id == row.id then { r with consumed := true } else r)) })
  | none => (none, q)

/-- State of `SQLiteQueueManager`: the `_queues` registry; each entry
carries its queue's storage (the two SQLite tables are the `rows` and
`history` fields of the entry). -/
structure SQLiteQueueManager where
  queues : List (String × SQLiteQueue) := []

/-- `SQLiteQueueManager.delete_queue`: when the name is registered, drop
the queue's tables and remove the registry entry; when it is not, the
method just falls through — no code path raises, which the `Except` result
makes explicit. -/
def delete_queue (m : SQLiteQueueManager) (name : String) :
    Except String SQLiteQueueManager :=
  if m.queues.any (fun p => p.1 == name) then
    Except.ok { queues := m.queues.filter (fun p => !(p.1 == name)) }
  else
    Except.ok m

/-- The per-value loop body of `SQLiteTSDB.write_tag_values`: executes the
inserts in order into the open transaction, counting each successful
insert; the first failing insert aborts the loop.  Returns the
transaction's pending rows, the count, and whether all inserts
succeeded.  `insertFails` models which `cursor.execute` calls raise. -/
def writeBatchGo (insertFails : TagValue → Bool) :
    List TagValue → List TagValue × Nat × Bool
  | [] => ([], 0, true)
  | v :: rest =>
    if insertFails v then ([], 0, false)
    else
      let r := writeBatchGo insertFails rest
      (v :: r.1, r.2.1 + 1, r.2.2)

/-- `SQLiteTSDB.write_tag_values`: run the insert loop; on success commit
(the batch becomes visible), on an exception roll the whole transaction
back (the store is unchanged).  Returns the store contents and the
returned count. -/
def write_tag_values (insertFails : TagValue → Bool)
    (db : List TagValue) (vs : List TagValue) : List TagValue × Nat :=
  let r := writeBatchGo insertFails vs
  if r.2.2 then (db ++ r.1, r.2.1) else (db, r.2.1)

/-- Keys of an association list (the Python dict's key view). -/
def keys (l : List (String × α)) : List String :=
  l.map Prod.fst

/-- Replace every subscriber callback of a bus, keeping patterns and
filters; used to state that delivery does not depend on whether callbacks
raise. -/
def withCallbacks (bus : InMemoryEventBus) (g : String → Event → Bool) :
    InMemoryEventBus :=
  { bus with subscriptions :=
      (bus.subscriptions.map (fun p => (p.1, { p.2 with cbRaises := g p.1 }))) }

/-- A concrete event of type `"X"` used in the replay scenario. -/
def sampleEvent (i : Nat) : Event :=
  { event_id := i, event_type := "X", timestamp := i, source := "demo" }

/-- The bus of the replay scenario: history cap 2, events `E1,E2,E3` of
type `"X"` published, then a subscriber to `"X"` registered. -/
def busC5 : InMemoryEventBus :=
  (subscribe (publishAll (initBus 2) [sampleEvent 1, sampleEvent 2, sampleEvent 3])
    ("sub-1") ("X") none (fun _ => false)).1

theorem publish_history_eq (bus : InMemoryEventBus) (e : Event) :
    (publish bus e).bus.event_history =
      if bus.max_history_size < bus.event_history.length + 1 then
        (bus.event_history ++ [e]).tail
      else bus.event_history ++ [e] := by
  simp [publish]

theorem publish_history_le (bus : InMemoryEventBus) (e : Event)
    (h : bus.event_history.length ≤ bus.max_history_size) :
    (publish bus e).bus.event_history.length ≤ bus.max_history_size := by
  rw [publish_history_eq]
  split <;> simp <;> omega

theorem publish_max_eq (bus : InMemoryEventBus) (e : Event) :
    (publish bus e).bus.max_history_size = bus.max_history_size := rfl

theorem publishAll_history : ∀ (es : List Event) (bus : InMemoryEventBus),
    bus.event_history.length ≤ bus.max_history_size →
    (publishAll bus es).event_history =
      lastN bus.max_history_size (bus.event_history ++ es) := by
  intro es
  induction es with
  | nil =>
    intro bus h
    simp [publishAll, lastN, Nat.sub_eq_zero_of_le h]
  | cons e rest ih =>
    intro bus h
    have hstep : publishAll bus (e :: rest) = publishAll (publish bus e).bus rest := rfl
    rw [hstep, ih _ (publish_history_le bus e h), publish_max_eq, publish_history_eq]
    by_cases hc : bus.max_history_size < bus.event_history.length + 1
    · have hn : bus.event_history.length = bus.max_history_size := by omega
      rw [if_pos hc]
      have h1 : (1 : Nat) ≤ (bus.event_history ++ [e]).length := by
        simp
      rw [← List.drop_one, ← List.drop_append_of_le_length h1]
      unfold lastN
      rw [List.drop_drop]
      congr 1
      · simp; omega
      · simp
    · rw [if_neg hc]
      simp

theorem lastN_length_le (n : Nat) (l : List α) : (lastN n l).length ≤ n := by
  simp [lastN]
  omega

theorem pySliceFrom_neg_of_le (n : Nat) (l : List α) (h : l.length ≤ n) :
    pySliceFrom (-(n : Int)) l = l := by
  unfold pySliceFrom
  rcases Nat.eq_zero_or_pos n with h0 | h0
  · subst h0
    simp
  · rw [if_pos (by omega)]
    have : ((l.length : Int) + -(n : Int)).toNat = 0 := by
      apply Int.toNat_of_nonpos; omega
    rw [this]
    simp

/-- C1: for every bus whose history respects its cap, `publish` keeps it
within the cap; from a fresh bus with cap `C`, any sequence of publishes
leaves at most `C` stored events; and after publishing `N > C` events,
`get_event_history(limit=C)` returns exactly the most recent `C` events in
publish order. -/
theorem eventbus_history_cap (bus : InMemoryEventBus) (e : Event)
    (C : Nat) (es : List Event)
    (hbus : bus.event_history.length ≤ bus.max_history_size) :
    (publish bus e).bus.event_history.length ≤ bus.max_history_size ∧
    (publishAll (initBus C) es).event_history.length ≤ C ∧
    (C < es.length →
      get_event_history (publishAll (initBus C) es) none none none C =
        es.drop (es.length - C)) := by
  have hinit : (initBus C).event_history.length ≤ (initBus C).max_history_size := by
    simp [initBus]
  have hall : (publishAll (initBus C) es).event_history = lastN C es := by
    have := publishAll_history es (initBus C) hinit
    simpa [initBus] using this
  refine ⟨publish_history_le bus e hbus, ?_, ?_⟩
  · rw [hall]; exact lastN_length_le C es
  · intro _
    have hfil : filteredHistory (publishAll (initBus C) es) none none none =
        (publishAll (initBus C) es).event_history := rfl
    rw [get_event_history, hfil, hall,
      pySliceFrom_neg_of_le C _ (lastN_length_le C es)]
    rfl

/-- Witness for C1 at a concrete bus: cap 2, three events published. -/
theorem eventbus_history_cap_witness :
    (initBus 2).event_history.length ≤ (initBus 2).max_history_size ∧
    2 < ([sampleEvent 1, sampleEvent 2, sampleEvent 3] : List Event).length ∧
    get_event_history (publishAll (initBus 2)
        [sampleEvent 1, sampleEvent 2, sampleEvent 3]) none none none 2 =
      [sampleEvent 2, sampleEvent 3] :=
  ⟨by simp [initBus], by simp,
   by
    have h := (eventbus_history_cap (initBus 2) (sampleEvent 1) 2
      [sampleEvent 1, sampleEvent 2, sampleEvent 3] (by simp [initBus])).2.2
      (by simp)
    simpa using h⟩

/-- C10: with `limit=0` the final Python slice `[-0:]` selects the whole
filtered list, so every matching event is returned; for every `limit ≥ 1`
at most `limit` events are returned. -/
theorem history_limit_zero_returns_all (bus : InMemoryEventBus)
    (t : Option String) (s e : Option Nat) (limit : Nat) :
    get_event_history bus t s e 0 = filteredHistory bus t s e ∧
    (1 ≤ limit → (get_event_history bus t s e limit).length ≤ limit) := by
  constructor
  · simp [get_event_history, pySliceFrom]
  · intro h
    rw [get_event_history, pySliceFrom, if_pos (by omega : -(limit : Int) < 0)]
    rw [List.length_drop]
    omega

/-- Witness for C10 at a concrete bus and limit. -/
theorem history_limit_zero_returns_all_witness :
    (1 : Nat) ≤ 1 ∧
    (get_event_history busC5 none none none 1).length ≤ 1 :=
  ⟨le_refl 1,
   (history_limit_zero_returns_all busC5 none none none 1).2 (le_refl 1)⟩

theorem deliverLoop_fst (e : Event) : ∀ subs : List (String × Subscription),
    (deliverLoop e subs).1 =
      (subs.filter (fun p => subMatches p.2 e)).map (fun p => (p.1, e)) := by
  intro subs
  induction subs with
  | nil => rfl
  | cons p rest ih =>
    rcases p with ⟨sid, sub⟩
    by_cases hm : subMatches sub e
    · simp [deliverLoop, hm, List.filter_cons, ih]
    · simp [deliverLoop, hm, List.filter_cons, ih]

theorem subMatches_set_cb (sub : Subscription) (f : Event → Bool) (e : Event) :
    subMatches { sub with cbRaises := f } e = subMatches sub e := rfl

theorem deliverLoop_fst_callbacks (e : Event) (g : String → Event → Bool) :
    ∀ subs : List (String × Subscription),
    (deliverLoop e (subs.map (fun p => (p.1, { p.2 with cbRaises := g p.1 })))).1 =
      (deliverLoop e subs).1 := by
  intro subs
  induction subs with
  | nil => rfl
  | cons p rest ih =>
    rcases p with ⟨sid, sub⟩
    by_cases hm : subMatches sub e
    · simp [deliverLoop, subMatches_set_cb, hm, ih]
    · simp [deliverLoop, subMatches_set_cb, hm, ih]

/-- C4: `publish` returns `True` unconditionally; it invokes exactly the
matching subscribers, in registration order; and the invocation log does
not depend on which callbacks raise, so one subscriber's exception neither
propagates nor prevents delivery to subsequent subscribers. -/
theorem publish_isolates_subscriber_failures (bus : InMemoryEventBus)
    (e : Event) (g : String → Event → Bool) :
    (publish bus e).ok = true ∧
    (publish bus e).invocations =
      (bus.subscriptions.filter (fun p => subMatches p.2 e)).map (fun p => (p.1, e)) ∧
    (publish (withCallbacks bus g) e).invocations = (publish bus e).invocations := by
  refine ⟨rfl, ?_, ?_⟩
  · show (deliverLoop e bus.subscriptions).1 = _
    exact deliverLoop_fst e bus.subscriptions
  · show (deliverLoop e (withCallbacks bus g).subscriptions).1 =
      (deliverLoop e bus.subscriptions).1
    exact deliverLoop_fst_callbacks e g bus.subscriptions

/-- C5: `replay_events` mutates nothing — in particular the history is not
re-appended — and on the scenario bus (cap 2, `E1,E2,E3` of type `"X"`
published, then one subscriber to `"X"`), replaying type `"X"` delivers
exactly `E2` then `E3`, with their original events (hence ids), to that
subscriber. -/
theorem replay_preserves_history_and_order (bus : InMemoryEventBus)
    (t : Option String) (s e : Option Nat) :
    (replay_events bus t s e).1.event_history = bus.event_history ∧
    (replay_events busC5 (some "X") none none).2 =
      [("sub-1", sampleEvent 2), ("sub-1", sampleEvent 3)] := by
  exact ⟨rfl, rfl⟩

theorem countType_append (t : String) (a b : List Event) :
    countType t (a ++ b) = countType t a + countType t b := by
  simp [countType, List.filter_append]

theorem tagStart_running (ctr now : Nat) (s : TagServant) :
    ((TagServant.start ctr now s).2.1).is_running = true := by
  by_cases h : s.is_running
  · simp [TagServant.start, h]
  · by_cases hp : s.config.auto_publish_events <;>
      simp [TagServant.start, h, hp]

theorem tagStart_noop (ctr now : Nat) (s : TagServant)
    (h : s.is_running = true) :
    TagServant.start ctr now s = (ctr, s, []) := by
  simp [TagServant.start, h]

theorem tagStart_count_created (ctr now : Nat) (s : TagServant)
    (h : s.is_running = false) (hp : s.config.auto_publish_events = true) :
    countType "TagCreated" (TagServant.start ctr now s).2.2 = 1 := by
  simp [TagServant.start, h, hp, countType, mkTagCreated]

theorem tagStart_no_instance_created (ctr now : Nat) (s : TagServant) :
    countType "InstanceCreated" (TagServant.start ctr now s).2.2 = 0 := by
  by_cases h : s.is_running
  · simp [TagServant.start, h, countType]
  · by_cases hp : s.config.auto_publish_events <;>
      simp [TagServant.start, h, hp, countType, mkTagCreated]

theorem startTagServants_fold_no_ic (now : Nat) :
    ∀ (l : List (String × TagServant))
      (init : Nat × List (String × TagServant) × List Event),
    countType "InstanceCreated" ((l.foldl (startTagStep now) init).2.2) =
      countType "InstanceCreated" init.2.2 := by
  intro l
  induction l with
  | nil => intro init; rfl
  | cons p rest ih =>
    intro init
    rw [List.foldl_cons, ih]
    show countType "InstanceCreated"
      (init.2.2 ++ (TagServant.start init.1 now p.2).2.2) = _
    rw [countType_append, tagStart_no_instance_created]
    omega

theorem assetStart_running (ctr now : Nat) (a : AssetServant) :
    ((AssetServant.start ctr now a).2.1).is_running = true := by
  by_cases h : a.is_running
  · simp [AssetServant.start, h]
  · simp [AssetServant.start, h]

theorem assetStart_noop (ctr now : Nat) (a : AssetServant)
    (h : a.is_running = true) :
    AssetServant.start ctr now a = (ctr, a, []) := by
  simp [AssetServant.start, h]

theorem assetStart_count_ic (ctr now : Nat) (a : AssetServant)
    (h : a.is_running = false) (hp : a.config.auto_publish_events = true) :
    countType "InstanceCreated" (AssetServant.start ctr now a).2.2 = 1 := by
  simp only [AssetServant.start, h, Bool.false_eq_true, if_false, hp, if_true]
  rw [countType_append]
  rw [show (startTagServants (ctr + 1) now
      ({ a with is_running := true } : AssetServant).tag_servants).2.2 =
    ((({ a with is_running := true } : AssetServant).tag_servants).foldl
      (startTagStep now) (ctr + 1, [], [])).2.2 from rfl]
  rw [startTagServants_fold_no_ic]
  simp [countType, mkInstanceCreated]

/-- C2: lifecycle idempotence for both servant kinds.  Starting a stopped
servant twice (with event publishing enabled, the default) produces
exactly one creation event — `TagCreated` for a tag servant,
`InstanceCreated` for an asset servant; stopping a never-started servant
produces no event and changes nothing; and `start` is a no-op on a
running servant. -/
theorem servant_lifecycle_idempotent (ctr now now2 : Nat)
    (ts : TagServant) (a : AssetServant) :
    (ts.is_running = false → ts.config.auto_publish_events = true →
      countType "TagCreated"
        ((TagServant.start ctr now ts).2.2 ++
          (TagServant.start (TagServant.start ctr now ts).1 now2
            (TagServant.start ctr now ts).2.1).2.2) = 1) ∧
    (ts.is_running = false → TagServant.stop ctr now ts = (ctr, ts, [])) ∧
    (ts.is_running = true → TagServant.start ctr now ts = (ctr, ts, [])) ∧
    (a.is_running = false → a.config.auto_publish_events = true →
      countType "InstanceCreated"
        ((AssetServant.start ctr now a).2.2 ++
          (AssetServant.start (AssetServant.start ctr now a).1 now2
            (AssetServant.start ctr now a).2.1).2.2) = 1) ∧
    (a.is_running = false → AssetServant.stop ctr now a = (ctr, a, [])) ∧
    (a.is_running = true → AssetServant.start ctr now a = (ctr, a, [])) := by
  refine ⟨?_, ?_, ?_, ?_, ?_, ?_⟩
  · intro h hp
    rw [tagStart_noop _ _ _ (tagStart_running ctr now ts)]
    rw [countType_append]
    rw [tagStart_count_created ctr now ts h hp]
    rfl
  · intro h
    simp [TagServant.stop, h]
  · intro h
    exact tagStart_noop ctr now ts h
  · intro h hp
    rw [assetStart_noop _ _ _ (assetStart_running ctr now a)]
    rw [countType_append]
    rw [assetStart_count_ic ctr now a h hp]
    rfl
  · intro h
    simp [AssetServant.stop, h]
  · intro h
    exact assetStart_noop ctr now a h

/-- Concrete tag definition used in witnesses. -/
def tagDefW : Tag :=
  { tag_id := "t1", name := "Temp", kind := "sensor", eu_unit := some "degC" }

/-- Concrete tag servant used in witnesses (fresh, default config). -/
def tagW : TagServant :=
  { tag_instance_id := "p1_t1", tag_definition := tagDefW,
    asset_instance_id := "p1" }

/-- Concrete asset definition used in witnesses. -/
def assetDefW : Asset :=
  { asset_id := "a1", name := "Pump", tags := [tagDefW] }

/-- Concrete placed instance used in witnesses. -/
def instW (i ref : String) : AssetInstance :=
  { instance_id := i, ref_asset := ref,
    transform := { translation := [0, 0, 0], rotation := [0, 0, 0],
                   scale := [1, 1, 1] } }

/-- Concrete asset servant used in witnesses. -/
def assetW : AssetServant :=
  mkAssetServant (instW "p1" "a1") assetDefW {}

/-- Witness for C2 at concrete servants. -/
theorem servant_lifecycle_idempotent_witness :
    (tagW.is_running = false ∧ tagW.config.auto_publish_events = true ∧
      countType "TagCreated"
        ((TagServant.start 0 0 tagW).2.2 ++
          (TagServant.start (TagServant.start 0 0 tagW).1 1
            (TagServant.start 0 0 tagW).2.1).2.2) = 1) ∧
    (assetW.is_running = false ∧ assetW.config.auto_publish_events = true ∧
      countType "InstanceCreated"
        ((AssetServant.start 0 0 assetW).2.2 ++
          (AssetServant.start (AssetServant.start 0 0 assetW).1 1
            (AssetServant.start 0 0 assetW).2.1).2.2) = 1) ∧
    TagServant.stop 0 0 tagW = (0, tagW, []) ∧
    AssetServant.stop 0 0 assetW = (0, assetW, []) :=
  ⟨⟨rfl, rfl, (servant_lifecycle_idempotent 0 0 1 tagW assetW).1 rfl rfl⟩,
   ⟨rfl, rfl, (servant_lifecycle_idempotent 0 0 1 tagW assetW).2.2.2.1 rfl rfl⟩,
   (servant_lifecycle_idempotent 0 0 1 tagW assetW).2.1 rfl,
   (servant_lifecycle_idempotent 0 0 1 tagW assetW).2.2.2.2.1 rfl⟩

/-- C3: a running tag servant with a numeric change threshold and a
numeric current value silently drops a numeric update within the
threshold: state (value and timestamp) unchanged, no event published,
nothing written to the store. -/
theorem threshold_suppression (ctr now : Nat) (s : TagServant) (th x c : ℚ)
    (hrun : s.is_running = true)
    (hth : s.config.value_change_threshold = some th)
    (hcur : s.current_value = some (PyVal.num c))
    (hlt : |x - c| < th) :
    TagServant.update_value ctr now (PyVal.num x) s = (ctr, s, [], []) := by
  have hsup : thresholdSuppressed s.config s.current_value (PyVal.num x) = true := by
    unfold thresholdSuppressed
    rw [hth, hcur]
    exact decide_eq_true hlt
  unfold TagServant.update_value
  rw [hrun, hsup]
  rfl

/-- Concrete running tag servant with threshold 1 and current value 5. -/
def tagThW : TagServant :=
  { tag_instance_id := "p1_t1", tag_definition := tagDefW,
    asset_instance_id := "p1",
    config := { value_change_threshold := some 1 },
    current_value := some (PyVal.num 5),
    last_update_time := some 3,
    is_running := true }

/-- Witness for C3: updating from 5 to 11/2 with threshold 1 is dropped. -/
theorem threshold_suppression_witness :
    |(11 / 2 : ℚ) - 5| < 1 ∧
    TagServant.update_value 7 9 (PyVal.num (11 / 2)) tagThW = (7, tagThW, [], []) :=
  ⟨by rw [abs_lt]; constructor <;> norm_num,
   threshold_suppression 7 9 tagThW 1 (11 / 2) 5 rfl rfl rfl
     (by rw [abs_lt]; constructor <;> norm_num)⟩

theorem assocSet_of_not_mem {α : Type} (l : List (String × α)) (k : String)
    (v : α) (h : k ∉ keys l) : assocSet l k v = l ++ [(k, v)] := by
  have hany : l.any (fun p => p.1 == k) = false := by
    rw [← Bool.not_eq_true, List.any_eq_true]
    rintro ⟨p, hp, hpk⟩
    exact h (by
      rw [← beq_iff_eq.mp hpk]
      exact List.mem_map_of_mem Prod.fst hp)
  simp [assocSet, hany]

theorem createAssetServant_none (svc : NDHService) (i : AssetInstance)
    (h : assocGet svc.asset_library i.ref_asset = none) :
    createAssetServant svc i = svc := by
  unfold createAssetServant
  rw [h]

theorem createAssetServant_library (svc : NDHService) (i : AssetInstance) :
    (createAssetServant svc i).asset_library = svc.asset_library := by
  unfold createAssetServant
  rcases assocGet svc.asset_library i.ref_asset with _ | a <;> rfl

theorem createAssetServant_keys (svc : NDHService) (i : AssetInstance)
    (a : Asset) (hres : assocGet svc.asset_library i.ref_asset = some a)
    (hmem : i.instance_id ∉ keys svc.asset_servants) :
    keys ((createAssetServant svc i).asset_servants) =
      keys svc.asset_servants ++ [i.instance_id] := by
  unfold createAssetServant
  rw [hres]
  show keys (assocSet svc.asset_servants i.instance_id _) = _
  rw [assocSet_of_not_mem _ _ _ hmem]
  simp [keys]

theorem gen_fold_keys : ∀ (insts : List AssetInstance) (svc : NDHService),
    (∀ i ∈ insts, i.instance_id ∉ keys svc.asset_servants) →
    (insts.map (fun i => i.instance_id)).Nodup →
    keys ((insts.foldl createAssetServant svc).asset_servants) =
      keys svc.asset_servants ++
        ((insts.filter
          (fun i => (assocGet svc.asset_library i.ref_asset).isSome)).map
          (fun i => i.instance_id)) := by
  intro insts
  induction insts with
  | nil => intro svc _ _; simp
  | cons i rest ih =>
    intro svc hmem hnd
    have hnd' : (∀ x ∈ rest, ¬x.instance_id = i.instance_id) ∧
        (rest.map (fun j => j.instance_id)).Nodup := by
      simpa using hnd
    rw [List.foldl_cons, List.filter_cons]
    rcases hres : assocGet svc.asset_library i.ref_asset with _ | a
    · rw [createAssetServant_none svc i hres]
      rw [ih svc (fun j hj => hmem j (List.mem_cons_of_mem _ hj)) hnd'.2]
      simp [hres]
    · have hkeys := createAssetServant_keys svc i a hres
        (hmem i (List.mem_cons_self i rest))
      have hlib := createAssetServant_library svc i
      rw [ih (createAssetServant svc i) ?_ hnd'.2]
      · rw [hkeys]
        simp only [hlib, hres, Option.isSome_some, if_true]
        rw [List.append_assoc]
        rfl
      · intro j hj
        rw [hkeys]
        simp only [List.mem_append, List.mem_singleton]
        rintro (hk | hk)
        · exact hmem j (List.mem_cons_of_mem _ hj) hk
        · exact absurd hk (hnd'.1 j hj)

/-- C6: with a layout loaded, `generate_servants` returns normally (no
raise) and produces exactly one asset servant, keyed by instance id, for
each placed instance whose referenced asset definition resolves in the
registry, skipping the others. -/
theorem generate_servants_skips_missing (svc : NDHService) (f : FDL)
    (hf : svc.fdl = some f) (h0 : svc.asset_servants = [])
    (hnd : ((fdlInstances f).map (fun i => i.instance_id)).Nodup) :
    generate_servants svc =
      Except.ok ((fdlInstances f).foldl createAssetServant svc) ∧
    keys (((fdlInstances f).foldl createAssetServant svc).asset_servants) =
      ((fdlInstances f).filter
        (fun i => (assocGet svc.asset_library i.ref_asset).isSome)).map
        (fun i => i.instance_id) := by
  constructor
  · simp [generate_servants, hf]
  · have h := gen_fold_keys (fdlInstances f) svc
      (fun i _ => by simp [h0, keys]) hnd
    simpa [h0, keys] using h

/-- Concrete area for the C6 witness: three placed instances, the second
referencing an unknown asset definition. -/
def areaW : Area :=
  { instances := [instW "i1" "a1", instW "i2" "missing", instW "i3" "a2"] }

/-- Concrete site for the C6 witness. -/
def siteW : Site :=
  { name := "site", areas := [areaW] }

/-- Concrete layout for the C6 witness. -/
def fdlW : FDL :=
  { site := some siteW }

/-- Second concrete asset definition used in the C6 witness. -/
def assetDefW2 : Asset :=
  { asset_id := "a2", name := "Fan", tags := [] }

/-- Concrete runtime service for the C6 witness: two registered asset
definitions and the three-instance layout. -/
def svcW : NDHService :=
  { asset_library := [("a1", assetDefW), ("a2", assetDefW2)],
    fdl := some fdlW }

/-- Witness for C6: of the three instances exactly the two resolvable
ones (`i1`, `i3`) yield asset servants, and nothing is raised. -/
theorem generate_servants_skips_missing_witness :
    generate_servants svcW =
      Except.ok ((fdlInstances fdlW).foldl createAssetServant svcW) ∧
    keys (((fdlInstances fdlW).foldl createAssetServant svcW).asset_servants) =
      ["i1", "i3"] :=
  ⟨(generate_servants_skips_missing svcW fdlW rfl rfl (by decide)).1,
   ((generate_servants_skips_missing svcW fdlW rfl rfl (by decide)).2).trans (by rfl)⟩

theorem selStep_consumed (acc : Option QRow) (r : QRow)
    (h : r.consumed = true) : selStep acc r = acc := by
  simp [selStep, h]

theorem foldl_selStep_consumed :
    ∀ (l : List QRow) (acc : Option QRow),
    (∀ r ∈ l, r.consumed = true) → l.foldl selStep acc = acc := by
  intro l
  induction l with
  | nil => intro acc _; rfl
  | cons r rest ih =>
    intro acc h
    rw [List.foldl_cons, selStep_consumed acc r (h r (List.mem_cons_self r rest))]
    exact ih acc (fun x hx => h x (List.mem_cons_of_mem _ hx))

theorem put_ok (q : SQLiteQueue) (msg : PyVal)
    (h : ¬(0 < q.max_size ∧ q.max_size ≤ (pendingRows q.rows).length)) :
    SQLiteQueue.put q msg = Except.ok { q with
      rows := q.rows ++ [{ id := q.next_id, message := msg, consumed := false }],
      history := q.history ++ [msg], next_id := q.next_id + 1 } := by
  unfold SQLiteQueue.put
  rw [if_neg h]

theorem get_eq (q : SQLiteQueue) (row : QRow)
    (h : selectOldestPending q.rows = some row) :
    SQLiteQueue.get q = (some row.message,
      { q with rows :=
        (q.rows.map (fun r =>
          if r.id == row.id then { r with consumed := true } else r)) }) := by
  unfold SQLiteQueue.get
  rw [h]

/-- Reading twice from a queue: if the oldest-pending scan finds `r1`,
and after marking `r1` consumed it finds `r2`, the two `get` calls return
the two messages in that order. -/
theorem get_get (q : SQLiteQueue) (r1 r2 : QRow)
    (h1 : selectOldestPending q.rows = some r1)
    (h2 : selectOldestPending (q.rows.map (fun r =>
      if r.id == r1.id then { r with consumed := true } else r)) = some r2) :
    (SQLiteQueue.get q).1 = some r1.message ∧
    (SQLiteQueue.get (SQLiteQueue.get q).2).1 = some r2.message := by
  rw [get_eq q r1 h1]
  refine ⟨rfl, ?_⟩
  show (SQLiteQueue.get { q with rows :=
    (q.rows.map (fun r =>
      if r.id == r1.id then { r with consumed := true } else r)) }).1 =
    some r2.message
  rw [get_eq _ r2 h2]

/-- C7: on a queue with no pending messages (and capacity not exactly 1),
`put(a); put(b); get(); get()` succeeds and returns `a` from the first
`get` and `b` from the second — FIFO order by insertion id. -/
theorem queue_fifo (q : SQLiteQueue) (a b : PyVal)
    (hpend : pendingRows q.rows = [])
    (hwf : ∀ r ∈ q.rows, r.id < q.next_id)
    (hcap : q.max_size ≠ 1) :
    ∃ q1 q2, SQLiteQueue.put q a = Except.ok q1 ∧
      SQLiteQueue.put q1 b = Except.ok q2 ∧
      (SQLiteQueue.get q2).1 = some a ∧
      (SQLiteQueue.get (SQLiteQueue.get q2).2).1 = some b := by
  have hcons : ∀ r ∈ q.rows, r.consumed = true := by
    intro r hr
    have h := List.filter_eq_nil_iff.mp hpend r hr
    simpa using h
  have hc1 : ¬(0 < q.max_size ∧ q.max_size ≤ (pendingRows q.rows).length) := by
    rw [hpend]
    simp
    omega
  have hput1 := put_ok q a hc1
  have hc2 : ¬(0 < q.max_size ∧ q.max_size ≤
      (pendingRows (q.rows ++ [⟨q.next_id, a, false⟩])).length) := by
    rw [pendingRows, List.filter_append,
      show q.rows.filter (fun r => !r.consumed) = [] from hpend]
    simp
    omega
  have hput2 := put_ok
    { q with
        rows := q.rows ++ [⟨q.next_id, a, false⟩],
        history := q.history ++ [a],
        next_id := q.next_id + 1 } b hc2
  have hsel2 : selectOldestPending
      ((q.rows ++ [⟨q.next_id, a, false⟩]) ++ [⟨q.next_id + 1, b, false⟩]) =
        some ⟨q.next_id, a, false⟩ := by
    rw [selectOldestPending, List.foldl_append, List.foldl_append,
      foldl_selStep_consumed q.rows none hcons]
    show (if q.next_id + 1 < q.next_id
      then some (⟨q.next_id + 1, b, false⟩ : QRow)
      else some ⟨q.next_id, a, false⟩) = some ⟨q.next_id, a, false⟩
    rw [if_neg (by omega)]
  have hmark : ∀ r ∈ q.rows,
      (if r.id == q.next_id then { r with consumed := true } else r) = r := by
    intro r hr
    have hne : (r.id == q.next_id) = false := by
      have := hwf r hr
      simp
      omega
    rw [hne]
    rfl
  have hmap : (((q.rows ++ [(⟨q.next_id, a, false⟩ : QRow)]) ++
      [(⟨q.next_id + 1, b, false⟩ : QRow)]).map (fun r =>
        if r.id == q.next_id then { r with consumed := true } else r)) =
      q.rows ++ ([(⟨q.next_id, a, true⟩ : QRow)] ++
        [(⟨q.next_id + 1, b, false⟩ : QRow)]) := by
    rw [List.map_append, List.map_append, List.append_assoc]
    congr 1
    · calc q.rows.map (fun r =>
            if r.id == q.next_id then { r with consumed := true } else r)
          = q.rows.map id := List.map_congr_left (fun r hr => hmark r hr)
        _ = q.rows := List.map_id q.rows
    · congr 1
      · show [if q.next_id == q.next_id
          then ({ id := q.next_id, message := a, consumed := true } : QRow)
          else ⟨q.next_id, a, false⟩] = [⟨q.next_id, a, true⟩]
        simp
      · show [if q.next_id + 1 == q.next_id
          then ({ id := q.next_id + 1, message := b, consumed := true } : QRow)
          else ⟨q.next_id + 1, b, false⟩] = [⟨q.next_id + 1, b, false⟩]
        rw [show ((q.next_id + 1 == q.next_id) = false) by simp]
        rfl
  have hsel3 : selectOldestPending
      (((q.rows ++ [(⟨q.next_id, a, false⟩ : QRow)]) ++
        [(⟨q.next_id + 1, b, false⟩ : QRow)]).map (fun r =>
          if r.id == q.next_id then { r with consumed := true } else r)) =
      some (⟨q.next_id + 1, b, false⟩ : QRow) := by
    rw [hmap, selectOldestPending, List.foldl_append,
      foldl_selStep_consumed q.rows none hcons]
    rfl
  have hgets := get_get
    { q with
        rows := (q.rows ++ [⟨q.next_id, a, false⟩]) ++ [⟨q.next_id + 1, b, false⟩],
        history := (q.history ++ [a]) ++ [b],
        next_id := q.next_id + 1 + 1 }
    ⟨q.next_id, a, false⟩ ⟨q.next_id + 1, b, false⟩ hsel2 hsel3
  exact ⟨_, _, hput1, hput2, hgets.1, hgets.2⟩


/-- Fresh concrete queue used in the C7 witness. -/
def queueW : SQLiteQueue :=
  { name := "jobs" }

/-- Witness for C7 at a fresh queue with two concrete messages. -/
theorem queue_fifo_witness :
    pendingRows queueW.rows = [] ∧
    queueW.max_size ≠ 1 ∧
    (∃ q1 q2, SQLiteQueue.put queueW (PyVal.str "a") = Except.ok q1 ∧
      SQLiteQueue.put q1 (PyVal.str "b") = Except.ok q2 ∧
      (SQLiteQueue.get q2).1 = some (PyVal.str "a") ∧
      (SQLiteQueue.get (SQLiteQueue.get q2).2).1 = some (PyVal.str "b")) :=
  ⟨rfl, by decide,
   queue_fifo queueW (PyVal.str "a") (PyVal.str "b") rfl
     (by intro r hr; simp [queueW] at hr) (by decide)⟩

/-- The empty queue manager. -/
def emptyManager : SQLiteQueueManager := {}

/-- Counterexample for C8: deleting a queue name that is not registered
raises nothing — the call returns normally with the manager unchanged,
where the claim demands a precondition error. -/
theorem delete_queue_unknown_is_silent :
    delete_queue emptyManager ("missing") = Except.ok emptyManager := rfl

/-- C8 (amended): `delete_queue` on an unknown name is a silent no-op —
it returns without error and leaves the registry unchanged; on a
registered name it drops the queue's storage and registry entry, so the
name no longer appears among the queues. -/
theorem delete_queue_behavior (m : SQLiteQueueManager) (name : String) :
    (m.queues.any (fun p => p.1 == name) = false →
      delete_queue m name = Except.ok m) ∧
    (m.queues.any (fun p => p.1 == name) = true →
      delete_queue m name =
        Except.ok { queues := m.queues.filter (fun p => !(p.1 == name)) } ∧
      name ∉ keys (m.queues.filter (fun p => !(p.1 == name)))) := by
  constructor
  · intro h
    simp [delete_queue, h]
  · intro h
    refine ⟨by simp [delete_queue, h], ?_⟩
    intro hmem
    obtain ⟨p, hp, hpe⟩ := List.mem_map.mp hmem
    have hf := (List.mem_filter.mp hp).2
    simp [hpe] at hf

/-- Concrete manager with one registered queue, for the C8 witness. -/
def mgrW : SQLiteQueueManager :=
  { queues := [("jobs", queueW)] }

/-- Witness for C8 (amended) at a concrete manager. -/
theorem delete_queue_behavior_witness :
    mgrW.queues.any (fun p => p.1 == "jobs") = true ∧
    (delete_queue mgrW ("jobs") =
        Except.ok { queues := mgrW.queues.filter (fun p => !(p.1 == "jobs")) } ∧
      "jobs" ∉ keys (mgrW.queues.filter (fun p => !(p.1 == "jobs")))) :=
  ⟨rfl, (delete_queue_behavior mgrW ("jobs")).2 rfl⟩

theorem writeBatchGo_ok (fails : TagValue → Bool) :
    ∀ vs : List TagValue, (∀ v ∈ vs, fails v = false) →
    writeBatchGo fails vs = (vs, vs.length, true) := by
  intro vs
  induction vs with
  | nil => intro _; rfl
  | cons v rest ih =>
    intro h
    rw [writeBatchGo, h v (List.mem_cons_self v rest)]
    rw [ih (fun w hw => h w (List.mem_cons_of_mem _ hw))]
    rfl

theorem writeBatchGo_fail (fails : TagValue → Bool) :
    ∀ vs : List TagValue, (∃ v ∈ vs, fails v = true) →
    (writeBatchGo fails vs).2.2 = false ∧
    (writeBatchGo fails vs).2.1 < vs.length := by
  intro vs
  induction vs with
  | nil =>
    rintro ⟨v, hv, _⟩
    exact absurd hv (List.not_mem_nil v)
  | cons v rest ih =>
    rintro ⟨w, hw, hfw⟩
    by_cases hv : fails v = true
    · rw [writeBatchGo, hv]
      simp
    · rcases List.mem_cons.mp hw with hwv | hwr
      · exact absurd (hwv ▸ hfw) hv
      · have hr := ih ⟨w, hwr, hfw⟩
        rw [writeBatchGo, Bool.eq_false_iff.mpr hv]
        simp only [Bool.false_eq_true, if_false, List.length_cons]
        exact ⟨hr.1, by omega⟩

/-- C9: the batch write is all-or-nothing for the store's contents — with
no failing insert the whole batch is appended and the batch length
returned; with any failing insert the store is left unchanged and the
returned count is the (strictly short, possibly zero) number of inserts
before the failure. -/
theorem batch_write_atomic (fails : TagValue → Bool) (db vs : List TagValue) :
    ((∀ v ∈ vs, fails v = false) →
      write_tag_values fails db vs = (db ++ vs, vs.length)) ∧
    ((∃ v ∈ vs, fails v = true) →
      (write_tag_values fails db vs).1 = db ∧
      (write_tag_values fails db vs).2 < vs.length) := by
  constructor
  · intro h
    show (if (writeBatchGo fails vs).2.2
      then (db ++ (writeBatchGo fails vs).1, (writeBatchGo fails vs).2.1)
      else (db, (writeBatchGo fails vs).2.1)) = (db ++ vs, vs.length)
    rw [writeBatchGo_ok fails vs h]
    rfl
  · intro h
    obtain ⟨h1, h2⟩ := writeBatchGo_fail fails vs h
    constructor
    · show (if (writeBatchGo fails vs).2.2
        then (db ++ (writeBatchGo fails vs).1, (writeBatchGo fails vs).2.1)
        else (db, (writeBatchGo fails vs).2.1)).1 = db
      rw [h1]
      rfl
    · show (if (writeBatchGo fails vs).2.2
        then (db ++ (writeBatchGo fails vs).1, (writeBatchGo fails vs).2.1)
        else (db, (writeBatchGo fails vs).2.1)).2 < vs.length
      rw [h1]
      exact h2

/-- The insert-failure model used in the C9 witness: an insert raises
exactly on values of quality 0. -/
def failsW : TagValue → Bool := fun v => v.quality == 0

/-- A good concrete tag value for the C9 witness. -/
def tvW (i : Nat) : TagValue :=
  { tag_id := "t", timestamp := i, value := PyVal.num 1 }

/-- The failing concrete tag value for the C9 witness. -/
def tvBad : TagValue :=
  { tag_id := "t", timestamp := 9, value := PyVal.num 1, quality := 0 }

/-- Witness for C9: a clean batch of two is fully written with count 2; a
batch of three whose second insert fails leaves the store empty with a
short count. -/
theorem batch_write_atomic_witness :
    (∀ v ∈ [tvW 1, tvW 2], failsW v = false) ∧
    write_tag_values failsW [] [tvW 1, tvW 2] = ([] ++ [tvW 1, tvW 2], 2) ∧
    (∃ v ∈ [tvW 1, tvBad, tvW 2], failsW v = true) ∧
    ((write_tag_values failsW [] [tvW 1, tvBad, tvW 2]).1 = [] ∧
      (write_tag_values failsW [] [tvW 1, tvBad, tvW 2]).2 < 3) :=
  ⟨by decide,
   (batch_write_atomic failsW [] [tvW 1, tvW 2]).1 (by decide),
   ⟨tvBad, by simp, rfl⟩,
   (batch_write_atomic failsW [] [tvW 1, tvBad, tvW 2]).2 ⟨tvBad, by simp, rfl⟩⟩

end IDTF


